import Mathlib

/-!
Shallow embedding of the gate-access-controller core:
the AccessLink entity, the status calculator, the access-decision
methods, the link service operations, the request_access endpoint
pipeline, and a small interleaving model for concurrent handlers.

Time is modelled as `Int` seconds (the Python code uses timezone-aware
datetimes; only ordering and differences in seconds matter here).
Functions that read `datetime.now(UTC)` internally take an explicit
`now` parameter.  Methods that raise `ValueError` return `Except`.
-/

namespace GateAccess

/-- LinkStatus enum from backend/app/models/access_link.py. -/
inductive LinkStatus
  | active
  | inactive
  | disabled
deriving DecidableEq, Repr

/-- The AccessLink entity (backend/app/models/access_link.py), restricted to
the columns the decision/status logic reads: status, active_on, expiration,
granted_count, denied_count, max_uses, last_accessed_at, auto_open,
is_deleted, deleted_at, updated_at.  Nullable columns are `Option`. -/
structure AccessLink where
  status : LinkStatus
  active_on : Option Int
  expiration : Option Int
  granted_count : Nat
  denied_count : Nat
  max_uses : Option Nat
  last_accessed_at : Option Int
  auto_open : Bool
  is_deleted : Bool
  deleted_at : Option Int
  updated_at : Option Int
deriving DecidableEq, Repr

/-- calculate_link_status from backend/app/utils/link_status.py.

Priority chain exactly as in the source:
1. DISABLED preserved; 2. deleted links INACTIVE; 3. before active_on
INACTIVE; 4. after expiration INACTIVE; 5. `max_uses is not None` and
`(granted_count or 0) >= max_uses` INACTIVE; 6. otherwise ACTIVE.
`granted_count` is a non-nullable column, so `(granted_count or 0)` is
`granted_count` (Python `0 or 0 == 0`, `n or 0 == n` for n > 0). -/
def calculate_link_status (link : AccessLink) (now : Int) : LinkStatus :=
  if link.status = LinkStatus.disabled then
    LinkStatus.disabled
  else if link.is_deleted then
    LinkStatus.inactive
  else if (match link.active_on with
           | some active_on => decide (now < active_on)
           | none => false) then
    LinkStatus.inactive
  else if (match link.expiration with
           | some expiration => decide (now > expiration)
           | none => false) then
    LinkStatus.inactive
  else if (match link.max_uses with
           | some max_uses => decide (link.granted_count ≥ max_uses)
           | none => false) then
    LinkStatus.inactive
  else
    LinkStatus.active

/-- Denial / outcome messages produced by can_grant_access and
validate_link, as an enumeration of the distinct message strings of the
source (backend/app/models/access_link.py and link_service.py). -/
inductive GrantReason
  | linkNoLongerExists
  | linkHasBeenDisabled
  | recentlyUsedWait (waitSeconds : Int)
  | maximumUsesExceeded
  | notActiveUntil (activeOn : Int)
  | linkHasExpired
  | linkIsInactive
  | accessGranted
  | invalidLinkCode
  | linkIsValid
deriving DecidableEq, Repr

/-- AccessLink.can_grant_access (backend/app/models/access_link.py).

Order as in the source: deleted, then DISABLED, then the cooldown window
(fires when `cooldown_seconds > 0`, a last_accessed_at exists and
`now - last_accessed < cooldown_seconds`; the wait time is
`cooldown_seconds - (now - last_accessed)`), then the INACTIVE branch with
its sub-reasons, then the final temporal/usage checks.  Both max-uses
tests use Python truthiness `if self.max_uses and ...`, so `max_uses = 0`
never fires them. -/
def can_grant_access (link : AccessLink) (cooldown_seconds : Int) (now : Int) :
    Bool × GrantReason :=
  if link.is_deleted then
    (false, GrantReason.linkNoLongerExists)
  else if link.status = LinkStatus.disabled then
    (false, GrantReason.linkHasBeenDisabled)
  else
    let cooldownDenial : Option GrantReason :=
      if cooldown_seconds > 0 then
        match link.last_accessed_at with
        | some last_accessed =>
            if now - last_accessed < cooldown_seconds then
              some (GrantReason.recentlyUsedWait (cooldown_seconds - (now - last_accessed)))
            else
              none
        | none => none
      else
        none
    match cooldownDenial with
    | some r => (false, r)
    | none =>
      if link.status = LinkStatus.inactive then
        if (match link.max_uses with
            | some max_uses => decide (max_uses ≠ 0) && decide (link.granted_count ≥ max_uses)
            | none => false) then
          (false, GrantReason.maximumUsesExceeded)
        else if (match link.active_on with
                 | some active_on => decide (now < active_on)
                 | none => false) then
          (false, GrantReason.notActiveUntil (link.active_on.getD 0))
        else if (match link.expiration with
                 | some expiration => decide (now > expiration)
                 | none => false) then
          (false, GrantReason.linkHasExpired)
        else
          (false, GrantReason.linkIsInactive)
      else if (match link.active_on with
               | some active_on => decide (now < active_on)
               | none => false) then
        (false, GrantReason.notActiveUntil (link.active_on.getD 0))
      else if (match link.expiration with
               | some expiration => decide (now > expiration)
               | none => false) then
        (false, GrantReason.linkHasExpired)
      else if (match link.max_uses with
               | some max_uses => decide (max_uses ≠ 0) && decide (link.granted_count ≥ max_uses)
               | none => false) then
        (false, GrantReason.maximumUsesExceeded)
      else
        (true, GrantReason.accessGranted)

/-- LinkService.validate_link (backend/app/services/link_service.py): the
stored lookup result is passed in as an `Option AccessLink`. -/
def validate_link (stored : Option AccessLink) (cooldown_seconds : Int) (now : Int) :
    Bool × GrantReason × Option AccessLink :=
  match stored with
  | none => (false, GrantReason.invalidLinkCode, none)
  | some link =>
    let r := can_grant_access link cooldown_seconds now
    if r.1 then (true, GrantReason.linkIsValid, some link)
    else (false, r.2, some link)

/-- AccessLink.update_status: recompute via calculate_link_status, write
the status field only when it changed; returns (link, changed). -/
def update_status (link : AccessLink) (now : Int) : AccessLink × Bool :=
  let original_status := link.status
  let new_status := calculate_link_status link now
  if new_status ≠ original_status then
    ({ link with status := new_status }, true)
  else
    (link, false)

/-- AccessLink.delete: set is_deleted and deleted_at, then recompute the
status via calculate_link_status on the updated entity. -/
def AccessLink.delete (link : AccessLink) (now : Int) : AccessLink :=
  let link1 : AccessLink := { link with is_deleted := true, deleted_at := some now }
  { link1 with status := calculate_link_status link1 now, updated_at := some now }

/-- AccessLink.disable: raises ValueError on a deleted link, otherwise
sets the status directly to DISABLED (manual override). -/
def AccessLink.disable (link : AccessLink) (now : Int) : Except String AccessLink :=
  if link.is_deleted then
    Except.error "Cannot disable a deleted link"
  else
    Except.ok { link with status := LinkStatus.disabled, updated_at := some now }

/-- AccessLink.enable: raises ValueError on a deleted link; on a DISABLED
link it provisionally sets ACTIVE, re-runs update_status, and reports a
change; otherwise it is a no-op reporting no change. -/
def AccessLink.enable (link : AccessLink) (now : Int) : Except String (AccessLink × Bool) :=
  if link.is_deleted then
    Except.error "Cannot enable a deleted link"
  else if link.status = LinkStatus.disabled then
    let link1 : AccessLink := { link with status := LinkStatus.active }
    Except.ok ((update_status link1 now).1, true)
  else
    Except.ok (link, false)

/-- LinkService.increment_granted_count: increment the counter, set
updated_at, recompute the status and write it only when changed.
It does NOT touch last_accessed_at (no code in the repository writes
that column). -/
def increment_granted_count (link : AccessLink) (now : Int) : AccessLink :=
  let link1 : AccessLink :=
    { link with granted_count := link.granted_count + 1, updated_at := some now }
  let new_status := calculate_link_status link1 now
  if new_status ≠ link1.status then
    { link1 with status := new_status }
  else
    link1

/-- LinkService.increment_denied_count. -/
def increment_denied_count (link : AccessLink) (now : Int) : AccessLink :=
  { link with denied_count := link.denied_count + 1, updated_at := some now }

/-- One iteration of LinkService.check_and_expire_links on a single row.
The service queries only rows with status ACTIVE and leaves every other
row untouched; for a loaded row it recomputes the status and writes the
row (status and updated_at) only when the status changed.  Returns the
resulting row and whether it was written. -/
def stepLink (now : Int) (link : AccessLink) : AccessLink × Bool :=
  if link.status = LinkStatus.active then
    let new_status := calculate_link_status link now
    if new_status ≠ link.status then
      ({ link with status := new_status, updated_at := some now }, true)
    else
      (link, false)
  else
    (link, false)

/-- LinkService.check_and_expire_links over the whole table, returning the
updated table and the number of links whose status was updated (the
service returns `len(updated_links)`). -/
def check_and_expire_links (links : List AccessLink) (now : Int) : List AccessLink × Nat :=
  let results := links.map (stepLink now)
  (results.map Prod.fst, (results.filter Prod.snd).length)

/-- DenialReason enum from backend/app/models/access_log.py. -/
inductive DenialReason
  | expired
  | disabledLink
  | deletedLink
  | not_active_yet
  | max_uses_exceeded
  | invalid_code
  | webhook_failed
  | rate_limited
  | other
deriving DecidableEq, Repr

/-- AccessStatus enum from backend/app/models/access_log.py. -/
inductive AccessStatus
  | granted
  | denied
  | error
deriving DecidableEq, Repr

/-- _get_denial_reason from backend/app/api/v1/endpoints/validate.py,
evaluated on each concrete message the decision code can produce.  The
source searches lowercase substrings in the order expired, disabled,
deleted, "not active", "maximum uses"/"max uses", invalid, else OTHER:
- "Link has expired" contains "expired" -> EXPIRED
- "Link has been disabled" contains "disabled" -> DISABLED
- "Link not active until ..." contains "not active" -> NOT_ACTIVE_YET
- "Maximum uses exceeded" contains "maximum uses" -> MAX_USES_EXCEEDED
- "Invalid link code" contains "invalid" -> INVALID_CODE
- "Link no longer exists" matches nothing (not "deleted") -> OTHER
- "Link was recently used. Please wait ..." matches nothing -> OTHER
- "Link is inactive" matches nothing -> OTHER. -/
def _get_denial_reason (message : GrantReason) : DenialReason :=
  match message with
  | GrantReason.linkHasExpired => DenialReason.expired
  | GrantReason.linkHasBeenDisabled => DenialReason.disabledLink
  | GrantReason.notActiveUntil _ => DenialReason.not_active_yet
  | GrantReason.maximumUsesExceeded => DenialReason.max_uses_exceeded
  | GrantReason.invalidLinkCode => DenialReason.invalid_code
  | _ => DenialReason.other

/-- The access-log row written by the request_access endpoint, restricted
to the fields the pipeline sets. -/
structure AccessLogRec where
  link_id_present : Bool
  status : Option AccessStatus
  denial_reason : Option DenialReason
  webhook_response_time_ms : Option Int
  error_message_present : Bool
deriving DecidableEq, Repr

/-- Observable database/actuator events of one request_access execution,
in program order: `actuate` marks the start of
webhook_service.trigger_gate_open(), `commit` marks a db.commit() (the
point at which pending changes become durable). -/
inductive DbEvent
  | actuate
  | commit
deriving DecidableEq, Repr

/-- Result of one request_access execution: the final state of the link
row, the access-log row written for the attempt, the HTTP status code of
the response, and the ordered event trace. -/
structure RequestOutcome where
  link : Option AccessLink
  log : AccessLogRec
  http_status : Nat
  trace : List DbEvent
deriving DecidableEq, Repr

/-- request_access from backend/app/api/v1/endpoints/validate.py.

`stored` is the result of looking the code up in the store; `webhook_ok`
is whether webhook_service.trigger_gate_open() succeeds (returning
`webhook_ms`) or raises after its retries.

Source order, faithfully:
- invalid: log DENIED with mapped reason; increment_denied_count (which
  itself commits) when the link exists; add the log; commit; respond 403.
- valid: call trigger_gate_open() FIRST (no commit has happened yet);
  on success log GRANTED, increment_granted_count (which commits), add
  the log, commit, respond 200;
  on failure log ERROR with WEBHOOK_FAILED and the error message, add
  the log, commit, respond 503 — granted_count is never incremented on
  this path.
- the valid-but-no-link case is unreachable (the source asserts it);
  modelled as the outer 500 handler that commits an error log. -/
def request_access (stored : Option AccessLink) (webhook_ok : Bool) (webhook_ms : Int)
    (cooldown_seconds : Int) (now : Int) : RequestOutcome :=
  let v := validate_link stored cooldown_seconds now
  let is_valid := v.1
  let message := v.2.1
  let link := v.2.2
  if is_valid = false then
    let link2 := link.map (fun l => increment_denied_count l now)
    { link := link2
      log := { link_id_present := link.isSome
               status := some AccessStatus.denied
               denial_reason := some (_get_denial_reason message)
               webhook_response_time_ms := none
               error_message_present := false }
      http_status := 403
      trace := (if link.isSome then [DbEvent.commit] else []) ++ [DbEvent.commit] }
  else
    match link with
    | none =>
      { link := none
        log := { link_id_present := false
                 status := some AccessStatus.error
                 denial_reason := none
                 webhook_response_time_ms := none
                 error_message_present := true }
        http_status := 500
        trace := [DbEvent.commit] }
    | some l =>
      if webhook_ok then
        let l2 := increment_granted_count l now
        { link := some l2
          log := { link_id_present := true
                   status := some AccessStatus.granted
                   denial_reason := none
                   webhook_response_time_ms := some webhook_ms
                   error_message_present := false }
          http_status := 200
          trace := [DbEvent.actuate, DbEvent.commit, DbEvent.commit] }
      else
        { link := some l
          log := { link_id_present := true
                   status := some AccessStatus.error
                   denial_reason := some DenialReason.webhook_failed
                   webhook_response_time_ms := none
                   error_message_present := true }
          http_status := 503
          trace := [DbEvent.actuate, DbEvent.commit] }

/-- Phase of one concurrent request_access handler on the grant path:
not yet started; holding its own ORM-session snapshot of the link row;
or finished with its decision (granted flag and reason). -/
inductive HandlerPhase
  | ready
  | loaded (snapshot : AccessLink)
  | finished (granted : Bool) (reason : GrantReason)
deriving DecidableEq, Repr

/-- Shared store (the access_links row) plus two concurrent handlers. -/
structure ConcState where
  store : AccessLink
  h1 : HandlerPhase
  h2 : HandlerPhase
deriving DecidableEq, Repr

/-- A handler completing its decision against its own session snapshot,
as request_access does: validate via can_grant_access on the snapshot,
then increment the granted (or denied) counter on the snapshot and
commit.  The ORM flush writes back exactly the attributes the handler
modified (counter, status, updated_at) using values computed from its
own snapshot — there is no per-link lock and no conditional update. -/
def finishHandler (store snapshot : AccessLink) (cooldown_seconds : Int) (now : Int) :
    AccessLink × HandlerPhase :=
  let r := can_grant_access snapshot cooldown_seconds now
  if r.1 then
    let snap2 := increment_granted_count snapshot now
    ({ store with granted_count := snap2.granted_count
                  status := snap2.status
                  updated_at := snap2.updated_at },
     HandlerPhase.finished true r.2)
  else
    let snap2 := increment_denied_count snapshot now
    ({ store with denied_count := snap2.denied_count
                  updated_at := snap2.updated_at },
     HandlerPhase.finished false r.2)

/-- One scheduler step: run the next pending action of handler 1
(`second = false`) or handler 2 (`second = true`).  A ready handler
loads a snapshot of the current store; a loaded handler completes its
check-increment-persist sequence; a finished handler does nothing. -/
def concStep (s : ConcState) (second : Bool) (cooldown_seconds : Int) (now : Int) : ConcState :=
  if second = false then
    match s.h1 with
    | HandlerPhase.ready => { s with h1 := HandlerPhase.loaded s.store }
    | HandlerPhase.loaded snapshot =>
        let r := finishHandler s.store snapshot cooldown_seconds now
        { s with store := r.1, h1 := r.2 }
    | HandlerPhase.finished _ _ => s
  else
    match s.h2 with
    | HandlerPhase.ready => { s with h2 := HandlerPhase.loaded s.store }
    | HandlerPhase.loaded snapshot =>
        let r := finishHandler s.store snapshot cooldown_seconds now
        { s with store := r.1, h2 := r.2 }
    | HandlerPhase.finished _ _ => s

/-- Run a schedule (a list of handler choices) from a state. -/
def runSchedule (cooldown_seconds : Int) (now : Int) : ConcState → List Bool → ConcState
  | s, [] => s
  | s, b :: rest => runSchedule cooldown_seconds now (concStep s b cooldown_seconds now) rest

/-- First-match-wins evaluation of an ordered rule table. -/
def firstMatch : List (Bool × LinkStatus) → LinkStatus → LinkStatus
  | [], dflt => dflt
  | (g, s) :: rest, dflt => if g then s else firstMatch rest dflt

/-- Transcription of the spec wording of claim C1 (spec section 4.1):
the fixed priority rule list — Disabled sticks; deleted is Inactive;
now before active_on is Inactive; an expiration is set and now after it
is Inactive; max_uses is set and granted_count at least max_uses is
Inactive.  This definition follows the spec words, for comparison with
calculate_link_status which is translated from the source. -/
def spec_status_rules (link : AccessLink) (now : Int) : List (Bool × LinkStatus) :=
  [ (decide (link.status = LinkStatus.disabled), LinkStatus.disabled),
    (link.is_deleted, LinkStatus.inactive),
    (link.active_on.any (fun active_on => decide (now < active_on)), LinkStatus.inactive),
    (link.expiration.any (fun expiration => decide (now > expiration)), LinkStatus.inactive),
    (link.max_uses.any (fun max_uses => decide (link.granted_count ≥ max_uses)), LinkStatus.inactive) ]

/-- The spec-side status function: first matching rule wins, otherwise
Active (rule 6 of the spec). -/
def spec_calculate_link_status (link : AccessLink) (now : Int) : LinkStatus :=
  firstMatch (spec_status_rules link now) LinkStatus.active

/-- C1: for every link and every current time, calculate_link_status
returns the first matching rule of the fixed priority order — Disabled
sticks; else deleted yields Inactive; else now before active_on yields
Inactive; else an expiration set with now after it yields Inactive; else
max_uses set with granted_count at least max_uses yields Inactive;
otherwise Active. -/
theorem calculate_link_status_follows_spec_priority (link : AccessLink) (now : Int) :
    calculate_link_status link now = spec_calculate_link_status link now := by
  unfold calculate_link_status spec_calculate_link_status spec_status_rules
  cases hao : link.active_on <;> cases hexp : link.expiration <;> cases hmax : link.max_uses <;>
    simp [hao, hexp, hmax, firstMatch, Option.any]

/-- The C5 scenario link: active_on one hour in the past, expiration one
hour in the future, max_uses one, granted_count zero, not deleted, not
disabled (stored status ACTIVE, as create_link leaves it). -/
def c5link (now : Int) : AccessLink :=
  { status := LinkStatus.active
    active_on := some (now - 3600)
    expiration := some (now + 3600)
    granted_count := 0
    denied_count := 0
    max_uses := some 1
    last_accessed_at := none
    auto_open := false
    is_deleted := false
    deleted_at := none
    updated_at := none }

/-- C5: on a link with active_on one hour past, expiration one hour
ahead, max_uses one and granted_count zero, validation allows; after the
grant the granted_count is one and the status is Inactive with the
max-uses rule the one that fires; and the next validation denies with
the maximum-uses-exceeded reason. -/
theorem single_use_scenario (now : Int) :
    (can_grant_access (c5link now) 60 now).1 = true ∧
    (increment_granted_count (c5link now) now).granted_count = 1 ∧
    (increment_granted_count (c5link now) now).status = LinkStatus.inactive ∧
    calculate_link_status (increment_granted_count (c5link now) now) now =
      LinkStatus.inactive ∧
    can_grant_access (increment_granted_count (c5link now) now) 60 now =
      (false, GrantReason.maximumUsesExceeded) := by
  have hao : ¬ (now < now - 3600) := by omega
  have hexp : ¬ (now > now + 3600) := by omega
  simp [c5link, can_grant_access, increment_granted_count, calculate_link_status, hao, hexp]

/-- A plain active link with no window, no usage cap, no deletion and no
recorded last access — every validation on it allows. -/
def plainActiveLink : AccessLink :=
  { status := LinkStatus.active
    active_on := none
    expiration := none
    granted_count := 0
    denied_count := 0
    max_uses := none
    last_accessed_at := none
    auto_open := false
    is_deleted := false
    deleted_at := none
    updated_at := none }

/-- A manually disabled (not deleted) link. -/
def disabledLink : AccessLink :=
  { plainActiveLink with status := LinkStatus.disabled }

/-- C2: the cooldown never engages because the grant path does not record
the timestamp the cooldown check reads.  A grant at time 1000 leaves
last_accessed_at unset (increment_granted_count — and no other code in
the repository — writes that column), so the attempt one second later,
far inside the 60-second cooldown window, is allowed with the
access-granted outcome instead of being denied with a wait-time reason. -/
theorem grant_does_not_record_cooldown_timestamp :
    (increment_granted_count plainActiveLink 1000).last_accessed_at = none ∧
    can_grant_access (increment_granted_count plainActiveLink 1000) 60 1001 =
      (true, GrantReason.accessGranted) := by decide

/-- C3: in the granting execution of request_access the very first
observable event is the actuator call — no commit precedes it; the
counter and attempt-record commits happen only after the webhook returns
(and on the failure path only after it raises). -/
theorem actuation_precedes_all_commits :
    (request_access (some plainActiveLink) true 5 60 1000).trace.head? = some DbEvent.actuate ∧
    DbEvent.commit ∈ (request_access (some plainActiveLink) true 5 60 1000).trace ∧
    (request_access (some plainActiveLink) false 5 60 1000).trace.head? =
      some DbEvent.actuate := by decide

/-- C4 counterexample: on a valid link whose webhook call fails, the
attempt is logged with the Error outcome but granted_count stays at its
original value zero — no use is consumed, refuting the claim that a use
is still consumed on hardware failure. -/
theorem webhook_failure_granted_count_unchanged :
    (request_access (some plainActiveLink) false 0 60 1000).log.status =
      some AccessStatus.error ∧
    (request_access (some plainActiveLink) false 0 60 1000).link = some plainActiveLink ∧
    Option.map (fun l => l.granted_count)
      (request_access (some plainActiveLink) false 0 60 1000).link = some 0 := by decide

/-- C4 amended: for every stored link whose validation allows, when the
actuation call fails after its retries the attempt is recorded with the
Error outcome — distinct from Granted and Denied — with the
webhook-failed reason and committed; nothing already performed is rolled
back, but no use is consumed: granted_count is not incremented and the
link row is left unchanged. -/
theorem actuation_failure_error_outcome_no_use (link : AccessLink)
    (cooldown_seconds ms now : Int)
    (h : (can_grant_access link cooldown_seconds now).1 = true) :
    (request_access (some link) false ms cooldown_seconds now).log.status =
      some AccessStatus.error ∧
    (request_access (some link) false ms cooldown_seconds now).log.denial_reason =
      some DenialReason.webhook_failed ∧
    AccessStatus.error ≠ AccessStatus.granted ∧
    AccessStatus.error ≠ AccessStatus.denied ∧
    (request_access (some link) false ms cooldown_seconds now).link = some link ∧
    (request_access (some link) false ms cooldown_seconds now).trace =
      [DbEvent.actuate, DbEvent.commit] := by
  simp [request_access, validate_link, h]

/-- Witness for the amended C4 theorem at a concrete link. -/
theorem actuation_failure_error_outcome_no_use_witness :
    (request_access (some plainActiveLink) false 0 60 1000).log.status =
      some AccessStatus.error ∧
    (request_access (some plainActiveLink) false 0 60 1000).log.denial_reason =
      some DenialReason.webhook_failed ∧
    AccessStatus.error ≠ AccessStatus.granted ∧
    AccessStatus.error ≠ AccessStatus.denied ∧
    (request_access (some plainActiveLink) false 0 60 1000).link = some plainActiveLink ∧
    (request_access (some plainActiveLink) false 0 60 1000).trace =
      [DbEvent.actuate, DbEvent.commit] :=
  actuation_failure_error_outcome_no_use plainActiveLink 60 0 1000 (by decide)

/-- A single-use link: max_uses one, granted_count zero, otherwise
unrestricted and active. -/
def c6link : AccessLink :=
  { plainActiveLink with max_uses := some 1 }

/-- Both handlers ready on the single-use link. -/
def c6start : ConcState :=
  { store := c6link, h1 := HandlerPhase.ready, h2 := HandlerPhase.ready }

/-- The interleaved run: both handlers load their snapshot before either
commits. -/
def c6conc : ConcState := runSchedule 60 1000 c6start [false, true, false, true]

/-- The serialized run: handler 1 completes before handler 2 starts. -/
def c6seq : ConcState := runSchedule 60 1000 c6start [false, false, true, true]

/-- C6: with max_uses one, the interleaving in which both handlers load
their session snapshot before either commits yields TWO granted attempts
— overshooting max_uses, with the stored counter ending at one — because
the check-increment-persist sequence has no per-link lock and no
conditional atomic update.  Under the serialized schedule the code does
give exactly one grant and one denial with the maximum-uses-exceeded
reason, which is the behaviour the claim asserts for every schedule. -/
theorem concurrent_grants_overshoot_max_uses :
    c6link.max_uses = some 1 ∧
    c6conc.h1 = HandlerPhase.finished true GrantReason.accessGranted ∧
    c6conc.h2 = HandlerPhase.finished true GrantReason.accessGranted ∧
    c6conc.store.granted_count = 1 ∧
    c6seq.h1 = HandlerPhase.finished true GrantReason.accessGranted ∧
    c6seq.h2 = HandlerPhase.finished false GrantReason.maximumUsesExceeded := by decide

/-- A deleted link whose stored status was Disabled at deletion time. -/
def c7deletedDisabled : AccessLink :=
  { plainActiveLink with status := LinkStatus.disabled, is_deleted := true, deleted_at := some 0 }

/-- C7 counterexample: for a deleted link whose status is Disabled the
calculator returns Disabled, not Inactive — the Disabled override has
higher priority than the deleted check — and delete() on a disabled link
leaves the status Disabled rather than forcing Inactive. -/
theorem deleted_disabled_link_not_inactive :
    c7deletedDisabled.is_deleted = true ∧
    calculate_link_status c7deletedDisabled 0 = LinkStatus.disabled ∧
    calculate_link_status c7deletedDisabled 0 ≠ LinkStatus.inactive ∧
    (AccessLink.delete disabledLink 0).is_deleted = true ∧
    (AccessLink.delete disabledLink 0).status = LinkStatus.disabled := by decide

/-- C7 amended: deletion is terminal except against the Disabled
override: every deleted link whose stored status is not Disabled computes
Inactive regardless of all other fields; delete() on a link that is not
Disabled forces the status to Inactive (on a Disabled link it stays
Disabled); and every further disable() or enable() call on a deleted
link is rejected with a ValueError without changing the link's state. -/
theorem deletion_terminal_amended (l : AccessLink) (now : Int) :
    (l.is_deleted = true → l.status ≠ LinkStatus.disabled →
      calculate_link_status l now = LinkStatus.inactive) ∧
    (l.status ≠ LinkStatus.disabled →
      (AccessLink.delete l now).status = LinkStatus.inactive) ∧
    (l.is_deleted = true →
      AccessLink.disable l now = Except.error "Cannot disable a deleted link" ∧
      AccessLink.enable l now = Except.error "Cannot enable a deleted link") := by
  refine ⟨?_, ?_, ?_⟩
  · intro hd hs
    simp [calculate_link_status, hd, hs]
  · intro hs
    simp [AccessLink.delete, calculate_link_status, hs]
  · intro hd
    exact ⟨by simp [AccessLink.disable, hd], by simp [AccessLink.enable, hd]⟩

/-- Witness for the amended C7 theorem at a concrete deleted link. -/
theorem deletion_terminal_amended_witness :
    calculate_link_status (AccessLink.delete plainActiveLink 5) 5 = LinkStatus.inactive ∧
    (AccessLink.delete plainActiveLink 5).status = LinkStatus.inactive ∧
    AccessLink.disable (AccessLink.delete plainActiveLink 5) 6 =
      Except.error "Cannot disable a deleted link" ∧
    AccessLink.enable (AccessLink.delete plainActiveLink 5) 6 =
      Except.error "Cannot enable a deleted link" := by
  refine ⟨?_, ?_, ?_, ?_⟩
  · exact (deletion_terminal_amended (AccessLink.delete plainActiveLink 5) 5).1
      (by decide) (by decide)
  · exact (deletion_terminal_amended plainActiveLink 5).2.1 (by decide)
  · exact ((deletion_terminal_amended (AccessLink.delete plainActiveLink 5) 6).2.2
      (by decide)).1
  · exact ((deletion_terminal_amended (AccessLink.delete plainActiveLink 5) 6).2.2
      (by decide)).2

/-- The calculator reports Disabled only for links whose stored status is
Disabled (the override is its first rule and nothing else produces it). -/
theorem calculate_link_status_disabled_source (link : AccessLink) (now : Int)
    (h : calculate_link_status link now = LinkStatus.disabled) :
    link.status = LinkStatus.disabled := by
  by_cases hs : link.status = LinkStatus.disabled
  · exact hs
  · exfalso
    unfold calculate_link_status at h
    simp only [hs, if_false] at h
    split_ifs at h

/-- A reconciler pass is per-row idempotent: running stepLink on the
output of stepLink changes nothing and reports no write. -/
theorem stepLink_idem (now : Int) (l : AccessLink) :
    stepLink now (stepLink now l).1 = ((stepLink now l).1, false) := by
  by_cases hs : l.status = LinkStatus.active
  · by_cases hc : calculate_link_status l now = l.status
    · simp [stepLink, hs, hc]
    · have hns : calculate_link_status l now ≠ LinkStatus.active := by
        intro hcontra
        exact hc (hcontra.trans hs.symm)
      simp [stepLink, hs, hc, hns]
  · simp [stepLink, hs]

/-- C8: the Reconciler is idempotent at a fixed time — an immediately
repeated check_and_expire_links run performs zero writes — it touches
only rows whose stored status is Active (so Disabled and deleted rows,
whose stored status is never Active, are skipped), and it writes a row
only when the recomputed status differs from the stored one. -/
theorem reconciler_idempotent (links : List AccessLink) (now : Int) :
    (check_and_expire_links (check_and_expire_links links now).1 now).2 = 0 ∧
    (∀ l : AccessLink, l.status ≠ LinkStatus.active → stepLink now l = (l, false)) ∧
    (∀ l : AccessLink, calculate_link_status l now = l.status →
      stepLink now l = (l, false)) := by
  refine ⟨?_, ?_, ?_⟩
  · simp only [check_and_expire_links, List.map_map, List.length_eq_zero,
      List.filter_eq_nil_iff]
    intro a ha
    simp only [List.mem_map, Function.comp] at ha
    obtain ⟨l, _, rfl⟩ := ha
    simp [stepLink_idem]
  · intro l h
    simp [stepLink, h]
  · intro l h
    by_cases hs : l.status = LinkStatus.active
    · simp [stepLink, hs, h]
    · simp [stepLink, hs]

/-- Witness for the C8 theorem: a concrete second run with zero writes, a
skipped disabled row, and an unchanged consistent row. -/
theorem reconciler_idempotent_witness :
    (check_and_expire_links (check_and_expire_links [plainActiveLink, c6link] 0).1 0).2 = 0 ∧
    stepLink 0 disabledLink = (disabledLink, false) ∧
    stepLink 0 plainActiveLink = (plainActiveLink, false) :=
  ⟨(reconciler_idempotent [plainActiveLink, c6link] 0).1,
   (reconciler_idempotent [] 0).2.1 disabledLink (by decide),
   (reconciler_idempotent [] 0).2.2 plainActiveLink (by decide)⟩

/-- update_status always leaves the field at the calculator's value. -/
theorem update_status_status (link : AccessLink) (now : Int) :
    (update_status link now).1.status = calculate_link_status link now := by
  unfold update_status
  by_cases h : calculate_link_status link now = link.status
  · simp [h]
  · simp [h]

/-- On a non-Disabled link whose usage cap is reached, the calculator
reports Inactive whatever the temporal window says. -/
theorem calc_status_exhausted (link : AccessLink) (now : Int)
    (hs : link.status ≠ LinkStatus.disabled)
    (m : Nat) (hm : link.max_uses = some m) (hge : m ≤ link.granted_count) :
    calculate_link_status link now = LinkStatus.inactive := by
  unfold calculate_link_status
  simp [hs, hm, hge]

/-- C9: on every non-deleted link, disable() then enable() leaves exactly
the status the calculator computes at the enable instant on the link with
the override cleared (provisionally Active); in particular an exhausted
link settles back to Inactive rather than being force-activated. -/
theorem disable_then_enable_recomputes (l : AccessLink) (nowD nowE : Int)
    (h : l.is_deleted = false) :
    ∃ ld : AccessLink, AccessLink.disable l nowD = Except.ok ld ∧
      ∃ le : AccessLink, AccessLink.enable ld nowE = Except.ok (le, true) ∧
        le.status = calculate_link_status { ld with status := LinkStatus.active } nowE ∧
        (∀ m : Nat, l.max_uses = some m → m ≤ l.granted_count →
          le.status = LinkStatus.inactive) := by
  refine ⟨{ l with status := LinkStatus.disabled, updated_at := some nowD },
    by simp [AccessLink.disable, h], ?_⟩
  refine ⟨(update_status { l with status := LinkStatus.active, updated_at := some nowD }
    nowE).1, ?_, ?_, ?_⟩
  · simp [AccessLink.enable, h]
  · exact update_status_status _ nowE
  · intro m hm hge
    rw [update_status_status _ nowE]
    exact calc_status_exhausted _ nowE (by simp) m (by simpa using hm) (by simpa using hge)

/-- An exhausted single-use link used to witness the C9 theorem. -/
def w9link : AccessLink :=
  { plainActiveLink with max_uses := some 1, granted_count := 1 }

/-- Witness for the C9 theorem at a concrete exhausted link. -/
theorem disable_then_enable_recomputes_witness :
    ∃ ld : AccessLink, AccessLink.disable w9link 10 = Except.ok ld ∧
      ∃ le : AccessLink, AccessLink.enable ld 20 = Except.ok (le, true) ∧
        le.status = calculate_link_status { ld with status := LinkStatus.active } 20 ∧
        (∀ m : Nat, w9link.max_uses = some m → m ≤ w9link.granted_count →
          le.status = LinkStatus.inactive) :=
  disable_then_enable_recomputes w9link 10 20 (by decide)

/-- C10: for every non-deleted link with max_uses zero, stored Inactive,
inside its temporal window and with no cooldown pending, the calculator
treats zero as an exhausted limit and returns Inactive, while
can_grant_access — whose truthiness test treats zero as unlimited —
denies with the generic link-is-inactive reason and can never produce
the maximum-uses-exceeded reason for this link at any time or cooldown. -/
theorem max_uses_zero_disagreement (l : AccessLink) (now : Int)
    (hdel : l.is_deleted = false)
    (hstat : l.status = LinkStatus.inactive)
    (hmax : l.max_uses = some 0)
    (hact : ∀ a : Int, l.active_on = some a → a ≤ now)
    (hexp : ∀ e : Int, l.expiration = some e → now ≤ e)
    (hcool : ∀ t : Int, l.last_accessed_at = some t → 60 ≤ now - t) :
    calculate_link_status l now = LinkStatus.inactive ∧
    can_grant_access l 60 now = (false, GrantReason.linkIsInactive) ∧
    (∀ cd t : Int, (can_grant_access l cd t).2 ≠ GrantReason.maximumUsesExceeded) := by
  have hnd : l.status ≠ LinkStatus.disabled := by simp [hstat]
  refine ⟨?_, ?_, ?_⟩
  · unfold calculate_link_status
    cases hao : l.active_on with
    | none =>
      cases hex : l.expiration with
      | none => simp [hnd, hdel, hmax]
      | some e =>
        have hne : ¬ (now > e) := by have := hexp e hex; omega
        simp [hnd, hdel, hmax, hne]
    | some a =>
      have hna : ¬ (now < a) := by have := hact a hao; omega
      cases hex : l.expiration with
      | none => simp [hnd, hdel, hmax, hao, hna]
      | some e =>
        have hne : ¬ (now > e) := by have := hexp e hex; omega
        simp [hnd, hdel, hmax, hao, hex, hna, hne]
  · unfold can_grant_access
    have hcw : ∀ u : Int, l.last_accessed_at = some u → ¬ (now - u < 60) := by
      intro u hu
      have := hcool u hu
      omega
    cases hla : l.last_accessed_at with
    | none =>
      cases hao : l.active_on with
      | none =>
        cases hex : l.expiration with
        | none => simp [hdel, hnd, hstat, hmax]
        | some e =>
          have hne : ¬ (now > e) := by have := hexp e hex; omega
          simp [hdel, hnd, hstat, hmax, hex, hne]
      | some a =>
        have hna : ¬ (now < a) := by have := hact a hao; omega
        cases hex : l.expiration with
        | none => simp [hdel, hnd, hstat, hmax, hao, hna]
        | some e =>
          have hne : ¬ (now > e) := by have := hexp e hex; omega
          simp [hdel, hnd, hstat, hmax, hao, hex, hna, hne]
    | some t =>
      have ht := hcw t hla
      cases hao : l.active_on with
      | none =>
        cases hex : l.expiration with
        | none => simp [hdel, hnd, hstat, hmax, hla, ht]
        | some e =>
          have hne : ¬ (now > e) := by have := hexp e hex; omega
          simp [hdel, hnd, hstat, hmax, hla, ht, hex, hne]
      | some a =>
        have hna : ¬ (now < a) := by have := hact a hao; omega
        cases hex : l.expiration with
        | none => simp [hdel, hnd, hstat, hmax, hla, ht, hao, hna]
        | some e =>
          have hne : ¬ (now > e) := by have := hexp e hex; omega
          simp [hdel, hnd, hstat, hmax, hla, ht, hao, hex, hna, hne]
  · intro cd t
    unfold can_grant_access
    cases hla : l.last_accessed_at with
    | none =>
      simp only [hla, hmax]
      split_ifs <;> simp_all
    | some u =>
      simp only [hla, hmax]
      split_ifs <;> simp_all

/-- A non-deleted link with max_uses zero, stored Inactive, with no
window and no recorded last access, used to witness the C10 theorem. -/
def w10link : AccessLink :=
  { plainActiveLink with status := LinkStatus.inactive, max_uses := some 0 }

/-- Witness for the C10 theorem at a concrete max_uses-zero link. -/
theorem max_uses_zero_disagreement_witness :
    calculate_link_status w10link 0 = LinkStatus.inactive ∧
    can_grant_access w10link 60 0 = (false, GrantReason.linkIsInactive) ∧
    (∀ cd t : Int, (can_grant_access w10link cd t).2 ≠ GrantReason.maximumUsesExceeded) :=
  max_uses_zero_disagreement w10link 0 (by decide) (by decide) (by decide)
    (fun a ha => by simp [w10link, plainActiveLink] at ha)
    (fun e he => by simp [w10link, plainActiveLink] at he)
    (fun t ht => by simp [w10link, plainActiveLink] at ht)

end GateAccess
